import Mathlib

/-!
Verification of the monetary-value algebra of `oxydized-money`
(`src/amount.rs`, `src/error.rs`, `src/result.rs`, `src/ops/*.rs`).

`Amount` is an immutable (value, currency) pair; `AmountResult` is the
error-coalescing wrapper around `Result<Amount, CurrencyError>`; the
operator table of `src/ops` is embedded function by function below.
-/

namespace OxMoney

/-- Modelled from the spec: the external currency catalog
(`iso_currency::Currency`) is out of scope; the core only consumes
identity comparison, the three-letter code string and the display
symbol. A representative four-entry enumeration. -/
inductive Currency where
  | EUR
  | USD
  | GBP
  | JPY
deriving DecidableEq

/-- Modelled from the spec: the code-string accessor of the catalog. -/
def Currency.code : Currency → String
  | .EUR => "EUR"
  | .USD => "USD"
  | .GBP => "GBP"
  | .JPY => "JPY"

/-- Modelled from the spec: the display-symbol accessor of the catalog. -/
def Currency.symbol : Currency → String
  | .EUR => "€"
  | .USD => "$"
  | .GBP => "£"
  | .JPY => "¥"

/-- Modelled from the spec: the external high-precision signed decimal
(`rust_decimal::Decimal`) is out of scope; the core treats it as an
opaque exact numeric value with add, sub, mul, div, neg, abs, zero
test, compare and format-to-N-digits. Embedded as the rationals. -/
abbrev Decimal := ℚ

/-- Modelled from the spec: `Decimal::abs`. -/
def Decimal.abs (q : Decimal) : Decimal := if q < 0 then -q else q

/-- Modelled from the spec: the total order on the decimal, as consumed
through `partial_cmp` (always a `Some` on the decimal itself). -/
def Decimal.compare (x y : Decimal) : Ordering :=
  if x < y then .lt else if x = y then .eq else .gt

/-- Modelled from the spec: `Decimal` comparison as an `Option Ordering`,
the shape `Amount`'s partial order consumes. -/
def Decimal.pcmp (x y : Decimal) : Option Ordering := some (Decimal.compare x y)

/-- Left-pad a digit string with zeros up to width `n`. -/
def zeroPad (n : Nat) (s : String) : String :=
  String.mk (List.replicate (n - s.length) '0') ++ s

/-- Modelled from the spec: the decimal's own locale-free formatting to
`prec` fractional digits. The repository's display tests pin the
behavior to truncation of the decimal expansion toward zero
(`(usd!(2)/dec!(3)) + usd!(1)` at precision 2 renders `1.66`, not
`1.67`), with zero padding when the value has fewer digits. -/
def Decimal.format (q : Decimal) (prec : Nat) : String :=
  let aq : Decimal := Decimal.abs q
  let n : Nat := aq.num.toNat
  let d : Nat := aq.den
  let ip : Nat := n / d
  let fp : Nat := n * 10 ^ prec / d - ip * 10 ^ prec
  let sign : String := if q < 0 then "-" else ""
  if prec = 0 then sign ++ toString ip
  else sign ++ toString ip ++ "." ++ zeroPad prec (toString fp)

/-- `src/amount.rs`: `Amount` is an immutable pair of a quantity and the
currency it is measured in. -/
structure Amount where
  value : Decimal
  currency : Currency
deriving DecidableEq

/-- `Amount::new`. -/
def Amount.new (value : Decimal) (currency : Currency) : Amount :=
  ⟨value, currency⟩

/-- `src/error.rs`: the closed error taxonomy. -/
inductive CurrencyError where
  | Mismatch (c1 c2 : Currency)
  | DivideByZero
  | Unknown
deriving DecidableEq

/-- `src/error.rs`: `impl Display for CurrencyError`. -/
def CurrencyError.fmt : CurrencyError → String
  | .Mismatch c1 c2 =>
      "mismatch currency \x27" ++ c1.code ++ "\x27 and \x27" ++ c2.code ++ "\x27"
  | .DivideByZero => "divide by zero"
  | .Unknown => "unknown currency"

/-- `src/result.rs`: `AmountResult(pub Result<Amount, CurrencyError>)`,
a wrapper holding either a valid `Amount` (`ok`) or a `CurrencyError`
(`err`). -/
inductive AmountResult where
  | ok (amount : Amount)
  | err (error : CurrencyError)
deriving DecidableEq

/-- `AmountResult::unknown`. -/
def AmountResult.unknown : AmountResult := .err .Unknown

/-- `AmountResult::mismatch`. -/
def AmountResult.mismatch (c1 c2 : Currency) : AmountResult :=
  .err (.Mismatch c1 c2)

/-- `AmountResult::divide_by_zero`. -/
def AmountResult.divide_by_zero : AmountResult := .err .DivideByZero

/-- `src/ops/add.rs`: `impl Add<Amount> for Amount`. Same currency adds
the values and keeps the left currency; otherwise `Mismatch` with the
left operand's currency first. -/
def Amount.add (a b : Amount) : AmountResult :=
  if a.currency = b.currency then
    .ok (Amount.new (a.value + b.value) a.currency)
  else
    .err (.Mismatch a.currency b.currency)

/-- `src/ops/add.rs`: `impl Add<AmountResult> for Amount`. -/
def Amount.addResult (a : Amount) (rhs : AmountResult) : AmountResult :=
  match rhs with
  | .ok b => a.add b
  | .err .Unknown => .ok a
  | .err e => .err e

/-- `src/ops/add.rs`: `impl Add<AmountResult> for AmountResult`. -/
def AmountResult.add (r rhs : AmountResult) : AmountResult :=
  match r with
  | .ok a => a.addResult rhs
  | .err .Unknown => rhs
  | .err e => .err e

/-- `src/ops/add.rs`: `impl Add<Amount> for AmountResult`. -/
def AmountResult.addAmount (r : AmountResult) (b : Amount) : AmountResult :=
  match r with
  | .ok a => a.add b
  | .err .Unknown => .ok b
  | .err e => .err e

/-- `src/ops/neg.rs`: `impl Neg for Amount`. -/
def Amount.neg (a : Amount) : Amount :=
  Amount.new (-a.value) a.currency

/-- `src/ops/neg.rs`: `impl Neg for AmountResult`. -/
def AmountResult.neg (r : AmountResult) : AmountResult :=
  match r with
  | .ok a => .ok a.neg
  | .err e => .err e

/-- `src/ops/sub.rs`: `impl Sub<Amount> for Amount`. -/
def Amount.sub (a b : Amount) : AmountResult :=
  if a.currency = b.currency then
    .ok (Amount.new (a.value - b.value) a.currency)
  else
    .err (.Mismatch a.currency b.currency)

/-- `src/ops/sub.rs`: `impl Sub<AmountResult> for Amount`. -/
def Amount.subResult (a : Amount) (rhs : AmountResult) : AmountResult :=
  match rhs with
  | .ok b => a.sub b
  | .err .Unknown => .ok a
  | .err e => .err e

/-- `src/ops/sub.rs`: `impl Sub<AmountResult> for AmountResult`. A left
`Unknown` yields the negation of the right-hand side. -/
def AmountResult.sub (r rhs : AmountResult) : AmountResult :=
  match r with
  | .ok a => a.subResult rhs
  | .err .Unknown => rhs.neg
  | .err e => .err e

/-- `src/ops/sub.rs`: `impl Sub<Amount> for AmountResult`. -/
def AmountResult.subAmount (r : AmountResult) (b : Amount) : AmountResult :=
  match r with
  | .ok a => a.sub b
  | .err .Unknown => .ok b.neg
  | .err e => .err e

/-- `src/ops/mul.rs`: `impl Mul<Decimal> for Amount`. Cannot fail. -/
def Amount.mul (a : Amount) (rhs : Decimal) : Amount :=
  Amount.new (a.value * rhs) a.currency

/-- `src/ops/mul.rs`: `impl Mul<Decimal> for AmountResult`. -/
def AmountResult.mul (r : AmountResult) (rhs : Decimal) : AmountResult :=
  match r with
  | .ok a => .ok (a.mul rhs)
  | .err e => .err e

/-- `src/ops/div.rs`: `impl Div<Decimal> for Amount`. The zero guard
uses `Decimal::is_zero` on the divisor. -/
def Amount.div (a : Amount) (rhs : Decimal) : AmountResult :=
  if rhs = 0 then
    .err .DivideByZero
  else
    .ok (Amount.new (a.value / rhs) a.currency)

/-- `src/ops/div.rs`: `impl Div<Decimal> for AmountResult`. Any wrapped
error is returned unchanged before `Amount::div` (and its zero check)
is ever reached. -/
def AmountResult.div (r : AmountResult) (rhs : Decimal) : AmountResult :=
  match r with
  | .ok a => a.div rhs
  | .err e => .err e

/-- `src/amount.rs`: `Amount::abs`. -/
def Amount.abs (a : Amount) : Amount :=
  Amount.new (Decimal.abs a.value) a.currency

/-- `src/ops/eq.rs`: `impl PartialEq<AmountResult> for Amount`. -/
def Amount.eqResult (a : Amount) (other : AmountResult) : Bool :=
  match other with
  | .ok b => decide (a = b)
  | .err _ => false

/-- `src/ops/eq.rs`: `impl PartialEq<Amount> for AmountResult`. -/
def AmountResult.eqAmount (r : AmountResult) (other : Amount) : Bool :=
  match r with
  | .ok a => decide (a = other)
  | .err _ => false

/-- `src/ops/eq.rs`: `impl PartialEq<AmountResult> for CurrencyError`. -/
def CurrencyError.eqResult (e : CurrencyError) (other : AmountResult) : Bool :=
  match other with
  | .ok _ => false
  | .err f => decide (e = f)

/-- `src/ops/eq.rs`: `impl PartialEq<CurrencyError> for AmountResult`. -/
def AmountResult.eqError (r : AmountResult) (other : CurrencyError) : Bool :=
  match r with
  | .ok _ => false
  | .err f => decide (f = other)

/-- `src/amount.rs`: `impl PartialOrd<Amount> for Amount`. Values are
compared only when the currencies agree; otherwise `None`. -/
def Amount.pcmp (a other : Amount) : Option Ordering :=
  if a.currency = other.currency then
    Decimal.pcmp a.value other.value
  else
    none

/-- `src/amount.rs`: `impl Display for Amount`, with
`f.precision().unwrap_or(2)`: symbol, a space, the value formatted to
the requested number of fractional digits. -/
def Amount.fmt (a : Amount) (precision : Option Nat) : String :=
  a.currency.symbol ++ " " ++ Decimal.format a.value (precision.getD 2)

/-- `src/result.rs`: `impl Display for AmountResult`. A success renders
as its `Amount` (the formatter's precision is passed through); a
failure renders as the error's text. -/
def AmountResult.fmt (r : AmountResult) (precision : Option Nat) : String :=
  match r with
  | .ok a => a.fmt precision
  | .err e => e.fmt

/-- `src/result.rs`: `impl Sum<Amount> for AmountResult`: the first
element seeds the accumulator, the rest are folded with
`Add<Amount> for AmountResult`; the empty sequence gives `Unknown`. -/
def AmountResult.sumAmounts : List Amount → AmountResult
  | [] => .err .Unknown
  | a :: rest => rest.foldl (fun acc b => acc.addAmount b) (.ok a)

/-- `src/result.rs`: `impl Sum<AmountResult> for AmountResult`: the
first element is the seed, the rest are folded with
`Add<AmountResult> for AmountResult`; the empty sequence gives
`Unknown`. -/
def AmountResult.sumResults : List AmountResult → AmountResult
  | [] => .err .Unknown
  | x :: rest => rest.foldl (fun acc y => acc.add y) x

/-!
Theorems: one per claim about the operator table, with witnesses for the
hypothesised ones and counterexamples where the stated claim fails.
-/

/-- Claim C1, amended: dividing an `Error(Unknown)` outcome by any
scalar — zero included — yields `Error(Unknown)`: in `src/ops/div.rs`
every pre-existing error, `Unknown` included, is returned unchanged
before the zero check is reached; `DivideByZero` arises only when the
outcome is a success divided by a zero scalar. -/
theorem c1_amended :
    (∀ z : Decimal, AmountResult.unknown.div z = AmountResult.unknown) ∧
    (∀ a : Amount, (AmountResult.ok a).div 0 = AmountResult.divide_by_zero) :=
  ⟨fun _ => rfl, fun a => by
    show Amount.div a 0 = AmountResult.divide_by_zero
    unfold Amount.div
    rw [if_pos rfl]
    rfl⟩

/-- Claim C1, counterexample: dividing `Error(Unknown)` by the zero
scalar returns `Error(Unknown)`, not `Error(DivideByZero)` as the claim
states. -/
theorem c1_cex :
    AmountResult.unknown.div 0 = AmountResult.unknown ∧
    AmountResult.unknown.div 0 ≠ AmountResult.divide_by_zero :=
  ⟨rfl, by decide⟩

/-- Claim C2, amended: an outcome latched with a non-`Unknown` error `e`
propagates `Error(e)` unchanged through every operation in which it is
the left operand (addition and subtraction with any operand,
multiplication and division by any scalar, negation), and through
addition and subtraction in which it is the right operand of an
`Amount`, of a success outcome, or of an `Error(Unknown)` outcome. -/
theorem c2_amended (e : CurrencyError) (he : e ≠ .Unknown) (x : AmountResult)
    (a b : Amount) (z : Decimal) :
    (AmountResult.err e).add x = .err e ∧
    (AmountResult.err e).addAmount a = .err e ∧
    (AmountResult.err e).sub x = .err e ∧
    (AmountResult.err e).subAmount a = .err e ∧
    (AmountResult.err e).mul z = .err e ∧
    (AmountResult.err e).div z = .err e ∧
    (AmountResult.err e).neg = .err e ∧
    a.addResult (.err e) = .err e ∧
    a.subResult (.err e) = .err e ∧
    (AmountResult.ok b).add (.err e) = .err e ∧
    (AmountResult.ok b).sub (.err e) = .err e ∧
    AmountResult.unknown.add (.err e) = .err e ∧
    AmountResult.unknown.sub (.err e) = .err e := by
  cases e with
  | Unknown => exact absurd rfl he
  | Mismatch c1 c2 =>
      exact ⟨rfl, rfl, rfl, rfl, rfl, rfl, rfl, rfl, rfl, rfl, rfl, rfl, rfl⟩
  | DivideByZero =>
      exact ⟨rfl, rfl, rfl, rfl, rfl, rfl, rfl, rfl, rfl, rfl, rfl, rfl, rfl⟩

/-- Claim C2, witness: a latched `DivideByZero` absorbs a success
operand on its right. -/
theorem c2_amended_w :
    (AmountResult.err .DivideByZero).add (.ok (Amount.new 1 .EUR)) = .err .DivideByZero :=
  (c2_amended .DivideByZero (by decide) (.ok (Amount.new 1 .EUR))
    (Amount.new 1 .EUR) (Amount.new 1 .EUR) 0).1

/-- Claim C2, counterexample: with the latched outcome
`Error(DivideByZero)` as the right operand and another non-`Unknown`
error outcome on the left, the left error wins, so the result is not
`Error(DivideByZero)` unchanged as the claim states for operands "on
either side". -/
theorem c2_cex :
    (AmountResult.mismatch .EUR .USD).add AmountResult.divide_by_zero =
      AmountResult.mismatch .EUR .USD ∧
    AmountResult.mismatch .EUR .USD ≠ AmountResult.divide_by_zero :=
  ⟨rfl, by decide⟩

/-- Claim C3: summing a sequence of `AmountResult`s (resp. `Amount`s) is
the left-to-right fold of the `+` rule seeded with `Unknown`; the empty
sequence sums to `Error(Unknown)`, a one-element sequence to its
element, and `[a, Unknown, b]` to `a + b`. -/
theorem c3_sum_fold (l : List AmountResult) (la : List Amount)
    (a b : Amount) (x : AmountResult) :
    AmountResult.sumResults l = l.foldl AmountResult.add AmountResult.unknown ∧
    AmountResult.sumAmounts la = la.foldl AmountResult.addAmount AmountResult.unknown ∧
    AmountResult.sumResults [] = AmountResult.unknown ∧
    AmountResult.sumAmounts [a] = .ok a ∧
    AmountResult.sumResults [x] = x ∧
    AmountResult.sumResults [.ok a, AmountResult.unknown, .ok b] = a.add b :=
  ⟨by cases l <;> rfl, by cases la <;> rfl, rfl, rfl, rfl, rfl⟩

/-- Claim C4: `Unknown` is a two-sided identity for `+` on an `Amount`,
while for `-` it is an identity only on the right; on the left it
negates the right operand. -/
theorem c4_unknown_identity (a : Amount) :
    AmountResult.unknown.addAmount a = .ok a ∧
    a.addResult AmountResult.unknown = .ok a ∧
    AmountResult.unknown.subAmount a = .ok a.neg ∧
    a.subResult AmountResult.unknown = .ok a :=
  ⟨rfl, rfl, rfl, rfl⟩

/-- Claim C5: adding or subtracting two `Amount`s of differing
currencies yields `Error(Mismatch(c_left, c_right))`, the left
operand's currency first. -/
theorem c5_mismatch (a b : Amount) (h : a.currency ≠ b.currency) :
    a.add b = .err (.Mismatch a.currency b.currency) ∧
    a.sub b = .err (.Mismatch a.currency b.currency) := by
  unfold Amount.add Amount.sub
  rw [if_neg h, if_neg h]
  exact ⟨rfl, rfl⟩

/-- Claim C5, witness: `eur(3) + usd(5)` and `eur(3) - usd(5)` are both
`Mismatch(EUR, USD)`. -/
theorem c5_mismatch_w :
    (Amount.new 3 .EUR).add (Amount.new 5 .USD) = .err (.Mismatch .EUR .USD) ∧
    (Amount.new 3 .EUR).sub (Amount.new 5 .USD) = .err (.Mismatch .EUR .USD) :=
  c5_mismatch (Amount.new 3 .EUR) (Amount.new 5 .USD) (by decide)

/-- Claim C6: for same-currency `Amount`s, `(a + b) - b` is the success
outcome wrapping exactly `a`, with no rounding loss in the exact
decimal arithmetic. -/
theorem c6_add_sub_cancel (a b : Amount) (h : a.currency = b.currency) :
    (a.add b).subAmount b = .ok a := by
  unfold Amount.add
  rw [if_pos h]
  show (Amount.new (a.value + b.value) a.currency).sub b = .ok a
  unfold Amount.sub
  rw [if_pos (show (Amount.new (a.value + b.value) a.currency).currency = b.currency from h)]
  show AmountResult.ok (Amount.new (a.value + b.value - b.value) a.currency) = .ok a
  rw [add_sub_cancel_right]
  rfl

/-- Claim C6, witness: `(eur(1) + eur(2)) - eur(2) == eur(1)`. -/
theorem c6_add_sub_cancel_w :
    ((Amount.new 1 .EUR).add (Amount.new 2 .EUR)).subAmount (Amount.new 2 .EUR) =
      .ok (Amount.new 1 .EUR) :=
  c6_add_sub_cancel (Amount.new 1 .EUR) (Amount.new 2 .EUR) rfl

/-- Claim C7: cross-kind equality is characterized exactly —
`Amount == AmountResult` holds iff the result is a success wrapping a
structurally equal `Amount`, `CurrencyError == AmountResult` holds iff
it is a failure wrapping an equal error — and both pairings are
symmetric. -/
theorem c7_cross_eq (a : Amount) (e : CurrencyError) (r : AmountResult) :
    (a.eqResult r = true ↔ r = .ok a) ∧
    (r.eqAmount a = true ↔ r = .ok a) ∧
    (e.eqResult r = true ↔ r = .err e) ∧
    (r.eqError e = true ↔ r = .err e) ∧
    a.eqResult r = r.eqAmount a ∧
    e.eqResult r = r.eqError e := by
  cases r with
  | ok b =>
      refine ⟨?_, ?_, ?_, ?_, ?_, ?_⟩ <;>
        simp [Amount.eqResult, AmountResult.eqAmount, CurrencyError.eqResult,
          AmountResult.eqError, eq_comm]
  | err f =>
      refine ⟨?_, ?_, ?_, ?_, ?_, ?_⟩ <;>
        simp [Amount.eqResult, AmountResult.eqAmount, CurrencyError.eqResult,
          AmountResult.eqError, eq_comm]

/-- Claim C8: the comparison of two `Amount`s returns `some` ordering
exactly when the currencies are identical and `none` whenever they
differ; concretely `eur(1)` vs `usd(1)` is incomparable and `eur(1)`
vs `eur(2)` is `lt`. -/
theorem c8_order_currency (a b : Amount) :
    ((a.pcmp b).isSome = true ↔ a.currency = b.currency) ∧
    (a.currency ≠ b.currency → a.pcmp b = none) ∧
    (Amount.new 1 .EUR).pcmp (Amount.new 1 .USD) = none ∧
    (Amount.new 1 .EUR).pcmp (Amount.new 2 .EUR) = some .lt := by
  refine ⟨?_, ?_, by decide, by decide⟩
  · by_cases hc : a.currency = b.currency <;>
      simp [Amount.pcmp, Decimal.pcmp, hc]
  · intro hc
    simp [Amount.pcmp, hc]

/-- Claim C8, witness: `eur(1)` and `usd(1)` are incomparable. -/
theorem c8_order_currency_w :
    (Amount.new 1 .EUR).pcmp (Amount.new 1 .USD) = none :=
  (c8_order_currency (Amount.new 1 .EUR) (Amount.new 1 .USD)).2.1 (by decide)

/-- Claim C9: a success outcome displays as the currency symbol, a
space, and the value formatted to the requested number of fractional
digits (default 2); `(usd(2) / 3) + usd(1)` renders `"$ 1.66"` at the
default precision and `"$ 1.666"` at precision 3. -/
theorem c9_display :
    (∀ (a : Amount) (p : Option Nat),
      (AmountResult.ok a).fmt p =
        a.currency.symbol ++ " " ++ Decimal.format a.value (p.getD 2)) ∧
    (((Amount.new 2 .USD).div 3).addAmount (Amount.new 1 .USD)).fmt none = "$ 1.66" ∧
    (((Amount.new 2 .USD).div 3).addAmount (Amount.new 1 .USD)).fmt (some 3) = "$ 1.666" := by
  have hval : (2 : ℚ)/3 + 1 = (⟨5, 3, by norm_num, by norm_num⟩ : ℚ) := by
    rw [Rat.mk'_eq_divInt, Rat.divInt_eq_div]
    norm_num
  have hres : ((Amount.new 2 .USD).div 3).addAmount (Amount.new 1 .USD) =
      .ok (Amount.new (⟨5, 3, by norm_num, by norm_num⟩ : ℚ) .USD) := by
    show AmountResult.ok (Amount.new ((2 : ℚ)/3 + 1) .USD) = _
    rw [hval]
  exact ⟨fun a p => rfl, by rw [hres]; decide, by rw [hres]; decide⟩

/-- Claim C10: every operation producing a success `Amount` keeps the
left (or sole) operand's currency: same-currency addition and
subtraction, scalar multiplication, nonzero scalar division, negation
and absolute value. -/
theorem c10_currency_preserved (a b : Amount) (z : Decimal)
    (h : a.currency = b.currency) (hz : z ≠ 0) :
    a.add b = .ok (Amount.new (a.value + b.value) a.currency) ∧
    a.sub b = .ok (Amount.new (a.value - b.value) a.currency) ∧
    (a.mul z).currency = a.currency ∧
    a.div z = .ok (Amount.new (a.value / z) a.currency) ∧
    a.neg.currency = a.currency ∧
    a.abs.currency = a.currency := by
  unfold Amount.add Amount.sub Amount.div
  rw [if_pos h, if_pos h, if_neg hz]
  exact ⟨rfl, rfl, rfl, rfl, rfl, rfl⟩

/-- Claim C10, witness: `eur(3) + eur(4)` succeeds and is tagged `EUR`. -/
theorem c10_currency_preserved_w :
    (Amount.new 3 .EUR).add (Amount.new 4 .EUR) =
      .ok (Amount.new ((3 : Decimal) + 4) .EUR) :=
  (c10_currency_preserved (Amount.new 3 .EUR) (Amount.new 4 .EUR) 2 rfl (by decide)).1

end OxMoney
